import Mathlib

/-!
Shallow embedding of the Cook County property system's caching, validation,
parsing and coordinate-transform logic, with theorems checking the
natural-language specification against the code.

Sources embedded:
- `src/unnamed/part_001` (Express routes): `PIN_REGEX`, `isCacheStale`,
  `handleCachedEndpoint`, `fetchAndCacheSource`, `proxyToDoNet` response shape.
- `src/express-proxy/server/storage.ts`: `upsertCache`, `getCachedData`.
- `src/database/schema.ts`: `pinSchema`.
- `src/dotnet-api/Services/CookCountyProxyService.cs`: `ValidatePin`,
  `ClearCache`, `FetchTaxPortalAsync` (cache population discipline),
  `GetTaxPortalDataAsync`, `ParseDocuments` / `ParseSimpleFormat` /
  `ParseExtendedFormat` / `CleanText`, `WebMercatorToLatLon`.

Network I/O is modelled by passing the outcome the network layer would
produce as an explicit argument; observable effects (whether a live fetch
was invoked, which cache writes happened) are returned explicitly.
-/

namespace CookCounty

/-! ## PIN validation

The pattern `^\d{2}-\d{2}-\d{3}-\d{3}-\d{4}$` appears three times, under two
different regex dialects:
- `PIN_REGEX` (src/unnamed/part_001 line 12) and `pinSchema` (schema.ts
  lines 76-79) are ECMAScript `RegExp`s: `\d` is exactly `[0-9]` and `$`
  (without the `m` flag) matches only at the very end of the string;
- `CookCountyProxyService.PinRegex` (CookCountyProxyService.cs line 27) is
  compiled with only `RegexOptions.Compiled`, i.e. under .NET *default*
  semantics: `\d` matches any Unicode decimal digit (`\p{Nd}`) and `$` also
  matches immediately before one trailing `'\n'`. -/

/-- Embedding of the anchored regex `^\d{2}-\d{2}-\d{3}-\d{3}-\d{4}$` under
ECMAScript semantics (JS `RegExp.test`): true exactly on 18-character
strings `dd-dd-ddd-ddd-dddd` (ASCII digits). -/
def pinRegexTest (s : String) : Bool :=
  match s.data with
  | [a, b, h1, c, d, h2, e, f, g, h3, i, j, k, h4, l, m, n, o] =>
    a.isDigit && b.isDigit && h1 == '-' && c.isDigit && d.isDigit && h2 == '-' &&
    e.isDigit && f.isDigit && g.isDigit && h3 == '-' &&
    i.isDigit && j.isDigit && k.isDigit && h4 == '-' &&
    l.isDigit && m.isDigit && n.isDigit && o.isDigit
  | _ => false

/-- The non-ASCII ranges of the Unicode `Nd` (decimal digit number) category
restricted to the Basic Multilingual Plane (Unicode 14.0 data).
.NET regexes operate on UTF-16 code units, so supplementary-plane digits are
surrogate pairs and can never match the single-code-unit class `\d`; hence
only BMP ranges are listed. -/
def ndNonAsciiRanges : List (Nat × Nat) :=
  [(0x660, 0x669), (0x6F0, 0x6F9), (0x7C0, 0x7C9), (0x966, 0x96F),
   (0x9E6, 0x9EF), (0xA66, 0xA6F), (0xAE6, 0xAEF), (0xB66, 0xB6F),
   (0xBE6, 0xBEF), (0xC66, 0xC6F), (0xCE6, 0xCEF), (0xD66, 0xD6F),
   (0xDE6, 0xDEF), (0xE50, 0xE59), (0xED0, 0xED9), (0xF20, 0xF29),
   (0x1040, 0x1049), (0x1090, 0x1099), (0x17E0, 0x17E9), (0x1810, 0x1819),
   (0x1946, 0x194F), (0x19D0, 0x19D9), (0x1A80, 0x1A89), (0x1A90, 0x1A99),
   (0x1B50, 0x1B59), (0x1BB0, 0x1BB9), (0x1C40, 0x1C49), (0x1C50, 0x1C59),
   (0xA620, 0xA629), (0xA8D0, 0xA8D9), (0xA900, 0xA909), (0xA9D0, 0xA9D9),
   (0xA9F0, 0xA9F9), (0xAA50, 0xAA59), (0xABF0, 0xABF9), (0xFF10, 0xFF19)]

/-- .NET default `\d`: any Unicode decimal digit (`\p{Nd}`) — the ASCII
digits plus the non-ASCII `Nd` ranges. -/
def isDotnetDigit (c : Char) : Bool :=
  c.isDigit ||
    ndNonAsciiRanges.any
      (fun r => decide (r.1 ≤ c.toNat) && decide (c.toNat ≤ r.2))

/-- The 2-2-3-3-4 dashed-digit shape with `\d` read as `\p{Nd}` (the body
of `PinRegex` between the anchors, under .NET semantics). -/
def dotnetPinShape : List Char → Bool
  | [a, b, h1, c, d, h2, e, f, g, h3, i, j, k, h4, l, m, n, o] =>
    isDotnetDigit a && isDotnetDigit b && h1 == '-' &&
    isDotnetDigit c && isDotnetDigit d && h2 == '-' &&
    isDotnetDigit e && isDotnetDigit f && isDotnetDigit g && h3 == '-' &&
    isDotnetDigit i && isDotnetDigit j && isDotnetDigit k && h4 == '-' &&
    isDotnetDigit l && isDotnetDigit m && isDotnetDigit n && isDotnetDigit o
  | _ => false

/-- `PinRegex.IsMatch` under .NET default (non-ECMAScript, non-multiline)
semantics: `^` anchors at the start of the string, and `$` matches at the
end of the string *or* immediately before one trailing `'\n'` — so the
pattern accepts the dashed-digit shape itself or that shape followed by a
single final newline. -/
def dotnetPinRegexMatch (s : String) : Bool :=
  dotnetPinShape s.data ||
    ((s.data.getLast? == some '\n') && dotnetPinShape s.data.dropLast)

/-- `CookCountyProxyService.ValidatePin` (CookCountyProxyService.cs line 38
and line 1266): `!string.IsNullOrEmpty(pin) && PinRegex.IsMatch(pin)`,
with `PinRegex.IsMatch` under .NET default semantics. -/
def validatePin (pin : String) : Bool :=
  !(pin == "") && dotnetPinRegexMatch pin

/-- `pinSchema` (schema.ts lines 76-79): a zod string schema accepting exactly
the strings matching the PIN regex. -/
def pinSchemaAccepts (s : String) : Bool :=
  pinRegexTest s

/-- Spec-side characterization of the regex language: five all-digit groups of
lengths 2, 2, 3, 3, 4 joined by single dashes. Used to relate `pinRegexTest`
to the spec's reading of `^\d{2}-\d{2}-\d{3}-\d{3}-\d{4}$`. -/
def PinGroupsForm (s : String) : Prop :=
  ∃ g1 g2 g3 g4 g5 : List Char,
    s.data = g1 ++ '-' :: g2 ++ '-' :: g3 ++ '-' :: g4 ++ '-' :: g5 ∧
    g1.length = 2 ∧ g2.length = 2 ∧ g3.length = 3 ∧ g4.length = 3 ∧ g5.length = 4 ∧
    (g1 ++ g2 ++ g3 ++ g4 ++ g5).all Char.isDigit = true

/-! ## Express persistent-cache layer (src/unnamed/part_001, storage.ts) -/

/-- `CACHE_MAX_AGE_HOURS = 24 * 7` (part_001 line 155). -/
def CACHE_MAX_AGE_HOURS : Int := 24 * 7

/-- `isCacheStale` (part_001 lines 157-160): age in milliseconds strictly
greater than `CACHE_MAX_AGE_HOURS * 60 * 60 * 1000`. `now` and `fetchedAt`
are millisecond timestamps (`Date.now()` / `Date.getTime()`). -/
def isCacheStale (now fetchedAt : Int) : Bool :=
  decide (now - fetchedAt > CACHE_MAX_AGE_HOURS * 60 * 60 * 1000)

/-- A `property_cache` row (schema.ts lines 20-30) as read by
`storage.getCachedData`: JSON payload (nullable), error text (nullable) and
fetch timestamp. `α` is the JSON payload type; `none` models SQL `NULL`
(JS-falsy). -/
structure PropertyCache (α : Type) where
  data : Option α
  error : Option String
  fetchedAt : Int
deriving Repr, DecidableEq

/-- The parsed body returned by `proxyToDoNet` (part_001 lines 57-72) as read
by its callers: HTTP status and the `{success?, data?, error?}` fields.
`proxyToDoNet` never throws: a network error becomes
`{status: 502, success: false, error: ".NET API is not available…",
code: DOTNET_UNAVAILABLE}`. -/
structure DotnetResponse (α : Type) where
  status : Nat
  success : Bool
  data : Option α
  error : Option String
deriving Repr, DecidableEq

/-- The response `handleCachedEndpoint` sends, one constructor per `res.…`
call site (part_001 lines 268-289):
- `invalidPin`: `res.status(400).json({success:false, error:"Invalid PIN
  format", code:"INVALID_PIN"})`;
- `cacheHit data cachedAt stale`: `res.json({success:true, data, cached:true,
  cachedAt})`, plus `stale:true` when `stale` is set;
- `passthrough status body`: `res.status(status).json(data)` forwarding the
  .NET response. -/
inductive EndpointResponse (α : Type) where
  | invalidPin
  | cacheHit (data : α) (cachedAt : Int) (stale : Bool)
  | passthrough (status : Nat) (body : DotnetResponse α)
deriving Repr, DecidableEq

/-- Observable outcome of one `handleCachedEndpoint` request: the response,
whether `proxyToDoNet` was invoked, and the payload passed to
`storage.setCachedData` (if any). -/
structure EndpointResult (α : Type) where
  response : EndpointResponse α
  fetchInvoked : Bool
  cacheWrite : Option α
deriving Repr, DecidableEq

/-- The tail of `handleCachedEndpoint` after `proxyToDoNet` returned
(part_001 lines 281-288): on `response.success && response.data`, write the
payload to the persistent cache and forward the response; otherwise, if a
cached row with truthy `data` exists, serve it with `stale: true`; otherwise
forward the (failed) response. -/
def afterLiveFetch {α : Type} (cached : Option (PropertyCache α))
    (live : DotnetResponse α) : EndpointResult α :=
  if live.success && live.data.isSome then
    ⟨.passthrough live.status live, true, live.data⟩
  else
    match cached with
    | some c =>
      match c.data with
      | some d => ⟨.cacheHit d c.fetchedAt true, true, none⟩
      | none => ⟨.passthrough live.status live, true, none⟩
    | none => ⟨.passthrough live.status live, true, none⟩

/-- `handleCachedEndpoint` (part_001 lines 268-289). Inputs: the `pin` query
parameter, the current time, the row `storage.getCachedData(pin, source)`
would return, and the response `proxyToDoNet(dotnetEndpoint, pin)` would
return if invoked. The guard `if (!pin || !PIN_REGEX.test(pin))` rejects
first; then `if (cached?.data && !isCacheStale(cached.fetchedAt))` serves the
fresh row without fetching; otherwise the live fetch runs. -/
def handleCachedEndpoint {α : Type} (pin : String) (now : Int)
    (cached : Option (PropertyCache α)) (live : DotnetResponse α) :
    EndpointResult α :=
  if pin == "" || !pinRegexTest pin then
    ⟨.invalidPin, false, none⟩
  else
    match cached with
    | some c =>
      match c.data with
      | some d =>
        if !isCacheStale now c.fetchedAt then
          ⟨.cacheHit d c.fetchedAt false, false, none⟩
        else
          afterLiveFetch (some c) live
      | none => afterLiveFetch (some c) live
    | none => afterLiveFetch none live

/-! ## Storage layer (storage.ts) -/

/-- The persistent `property_cache` table: rows keyed by `(pin, source)`.
The unique index `uq_property_cache_pin_source` (schema.ts line 29)
guarantees at most one row per key. -/
def CacheStore (α : Type) := List (String × String × PropertyCache α)

/-- JS `error || null` (storage.ts lines 49 and 56): `undefined` and the
empty string are falsy and become SQL `NULL`. -/
def jsFalsyToNone : Option String → Option String
  | some e => if e == "" then none else some e
  | none => none

/-- `upsertCache` (storage.ts lines 42-60): insert `{pin, source, data,
error: error || null, fetchedAt: new Date()}` with `onConflictDoUpdate` on
`(pin, source)` setting the same fields — i.e. the conflicting row (unique,
by the index) is replaced by the new one. -/
def upsertCache {α : Type} (store : CacheStore α) (pin source : String)
    (data : Option α) (error : Option String) (now : Int) : CacheStore α :=
  (pin, source, ⟨data, jsFalsyToNone error, now⟩) ::
    store.filter (fun e => !(e.1 == pin && e.2.1 == source))

/-- `getCachedData` (storage.ts lines 63-71): select the row for
`(pin, source)` (at most one, by the unique index). -/
def getCachedData {α : Type} (store : CacheStore α) (pin source : String) :
    Option (PropertyCache α) :=
  (store.find? (fun e => e.1 == pin && e.2.1 == source)).map (·.2.2)

/-- `response.error || \`HTTP ${status}\`` (part_001 line 84): a missing or
empty error string falls back to `HTTP <status>`. -/
def errorOrHttp {α : Type} (live : DotnetResponse α) : String :=
  match live.error with
  | some e => if e == "" then "HTTP " ++ toString live.status else e
  | none => "HTTP " ++ toString live.status

/-- `fetchAndCacheSource` (part_001 lines 76-86) composed with the
`cacheWriter` (= `storage.setCachedData(Import)`, i.e. `upsertCache`): after
the proxied fetch returns, write either `(data, undefined)` on
`response.success && response.data`, or `(null, response.error || HTTP s)`
otherwise. Returns the store after the write. -/
def fetchAndCacheSource {α : Type} (pin source : String)
    (live : DotnetResponse α) (store : CacheStore α) (now : Int) :
    CacheStore α :=
  if live.success && live.data.isSome then
    upsertCache store pin source live.data none now
  else
    upsertCache store pin source none (some (errorOrHttp live)) now

/-! ## .NET in-process fetch cache (`IMemoryCache`, CookCountyProxyService.cs)

Both `CookCountyProxyService` and `PropertySummaryService` share the
injected `IMemoryCache`; every entry is set with the 5-minute
`CacheDuration`. The cache is modelled as an association list from string
keys to values; TTL expiry is not modelled — the claims concern only which
operations populate and remove entries. -/

/-- The in-process memory cache: string keys to values of type `V`. -/
def MemCache (V : Type) := List (String × V)

/-- `IMemoryCache.TryGetValue`. -/
def memLookup {V : Type} (cache : MemCache V) (k : String) : Option V :=
  (cache.find? (fun e => e.1 == k)).map (·.2)

/-- `IMemoryCache.Set`: overwrite the entry for `k`. -/
def memSet {V : Type} (cache : MemCache V) (k : String) (v : V) : MemCache V :=
  (k, v) :: cache.filter (fun e => !(e.1 == k))

/-- `IMemoryCache.Remove`. -/
def memRemove {V : Type} (cache : MemCache V) (k : String) : MemCache V :=
  cache.filter (fun e => !(e.1 == k))

/-- `CookCountyProxyService.ClearCache` (CookCountyProxyService.cs lines
1156-1170): with a non-null, non-empty pin, remove the five raw-HTML cache
keys for that pin; otherwise (`pin` null or empty) only log
"Cache clear requested for all entries" — no entry is removed. -/
def ClearCache {V : Type} (pin : Option String) (cache : MemCache V) :
    MemCache V :=
  match pin with
  | some p =>
    if !(p == "") then
      memRemove (memRemove (memRemove (memRemove (memRemove cache
        ("taxportal_" ++ p)) ("countyclerk_" ++ p)) ("treasurer_" ++ p))
        ("recorder_" ++ p)) ("assessor_" ++ p)
    else
      cache
  | none => cache

/-- Outcome of the try-block body of `FetchTaxPortalAsync` (the network and
parsing steps, lines 69-223), passed in explicitly:
- `success html`: control reaches line 213 with cleaned result HTML (either
  the direct tax-portal path or the assessor fallback, which caches under
  the same key at line 312);
- `sourceError e c`: an early `return Error(e, c)` inside the try
  (FETCH_ERROR on a non-2xx or missing tokens, NOT_FOUND, failed fallback);
- `raises msg`: an exception escapes to the catch (lines 224-228). -/
inductive RawFetchOutcome where
  | success (html : String)
  | sourceError (error code : String)
  | raises (msg : String)
deriving Repr, DecidableEq

/-- Response of the raw-HTML fetch operations: `ApiSuccessResponse` carrying
the HTML, or `ApiErrorResponse {Error, Code}`. -/
inductive RawResponse where
  | successHtml (html : String)
  | errorResp (error code : String)
deriving Repr, DecidableEq

/-- `CookCountyProxyService.FetchTaxPortalAsync` (lines 48-229): validate
the PIN (`INVALID_PIN` before any I/O); serve the in-process key
`taxportal_{pin}` on hit; otherwise run the fetch — on success cache the
cleaned HTML (line 213, 5-minute TTL) and return it; an early error return
leaves the cache untouched; the catch converts an exception into
`Error("Failed to fetch tax portal data", "FETCH_ERROR")` without caching.
Returns the response and the cache afterwards. -/
def FetchTaxPortal (pin : String) (cache : MemCache String)
    (outcome : RawFetchOutcome) : RawResponse × MemCache String :=
  if !validatePin pin then
    (.errorResp "Invalid or missing PIN. Format: XX-XX-XXX-XXX-XXXX"
      "INVALID_PIN", cache)
  else
    match memLookup cache ("taxportal_" ++ pin) with
    | some html => (.successHtml html, cache)
    | none =>
      match outcome with
      | .success html =>
        (.successHtml html, memSet cache ("taxportal_" ++ pin) html)
      | .sourceError e c => (.errorResp e c, cache)
      | .raises _ =>
        (.errorResp "Failed to fetch tax portal data" "FETCH_ERROR", cache)

/-- A `TaxPortalStructuredData` record as assembled by
`GetTaxPortalDataAsync`: the PIN, the parsed payload fields (abstracted as
`Option α`, best-effort) and the optional `Error` string. -/
structure StructEntry (α : Type) where
  pin : String
  payload : Option α
  error : Option String
deriving Repr, DecidableEq

/-- Response of the structured-data operations. -/
inductive StructResponse (α : Type) where
  | successData (data : StructEntry α)
  | errorResp (error code : String)
deriving Repr, DecidableEq

/-- `PropertySummaryService.GetTaxPortalDataAsync` (CookCountyProxyService.cs
lines 1269-1317): validate; serve the in-process key `taxportal_{pin}` on
hit; otherwise build the record in a try/catch — `outcome = .ok (payload,
err?)` when the try-block completes (parsed fields plus any source-reported
error), `.error msg` when an exception escapes to the catch (line 1306),
which sets `Error = "Fetch failed: <msg>"` — then *unconditionally*
`_cache.Set(cacheKey, data, CacheDuration)` (line 1315) and return the
record in a success envelope. -/
def GetTaxPortalData {α : Type} (pin : String)
    (cache : MemCache (StructEntry α))
    (outcome : Except String (Option α × Option String)) :
    StructResponse α × MemCache (StructEntry α) :=
  if !validatePin pin then
    (.errorResp "Invalid or missing PIN. Format: XX-XX-XXX-XXX-XXXX"
      "INVALID_PIN", cache)
  else
    match memLookup cache ("taxportal_" ++ pin) with
    | some entry => (.successData entry, cache)
    | none =>
      let data : StructEntry α :=
        match outcome with
        | .ok (payload, err) => ⟨pin, payload, err⟩
        | .error msg => ⟨pin, none, some ("Fetch failed: " ++ msg)⟩
      (.successData data, memSet cache ("taxportal_" ++ pin) data)

/-! ## Recorder document parsing (`RecorderHtmlParser`,
CookCountyProxyService.cs lines 2698-2985)

The parser works on an `HtmlDocument`; the embedding abstracts the results
table as its header texts (`.//thead//th` inner texts) and its data rows
(`.//tbody/tr`), each row being the list of its `.//td` cells. A cell is
abstracted by the node texts the parser extracts from it. -/

/-- One `<td>` cell, as accessed by `ParseSimpleFormat` /
`ParseExtendedFormat`: the first `.//a[@href]` link's href, the first
`.//a` link's inner text, the first `.//span`'s inner text, and the inner
text of `.//span[@class='small']//span`. `none` models a missing node. -/
structure Cell where
  linkHref : Option String
  linkText : Option String
  spanText : Option String
  smallSpanText : Option String
deriving Repr, DecidableEq

/-- A `RecorderDocumentFull` as filled in by the parser; every field is an
optional string (`none` = the C# field stays null). -/
structure RecorderDocumentFull where
  viewUrl : Option String := none
  documentNumber : Option String := none
  dateRecorded : Option String := none
  dateExecuted : Option String := none
  documentType : Option String := none
  firstGrantor : Option String := none
  firstGrantee : Option String := none
  associatedDocNumber : Option String := none
  firstPIN : Option String := none
  propertyAddress : Option String := none
deriving Repr, DecidableEq

/-- `WebUtility.HtmlDecode` restricted to the named entities the county
markup uses (`&amp; &lt; &gt; &quot;`, and `&nbsp;` to U+00A0); other text
passes through unchanged. -/
def decodeHtmlChars : List Char → List Char
  | '&' :: 'a' :: 'm' :: 'p' :: ';' :: rest => '&' :: decodeHtmlChars rest
  | '&' :: 'l' :: 't' :: ';' :: rest => '<' :: decodeHtmlChars rest
  | '&' :: 'g' :: 't' :: ';' :: rest => '>' :: decodeHtmlChars rest
  | '&' :: 'q' :: 'u' :: 'o' :: 't' :: ';' :: rest => '"' :: decodeHtmlChars rest
  | '&' :: 'n' :: 'b' :: 's' :: 'p' :: ';' :: rest => ' ' :: decodeHtmlChars rest
  | c :: rest => c :: decodeHtmlChars rest
  | [] => []

/-- .NET regex `\s`: whitespace, including the non-breaking space produced
by decoding `&nbsp;`. -/
def isWsChar (c : Char) : Bool :=
  c == ' ' || c == '\t' || c == '\n' || c == '\r' || c == '\u000b' ||
  c == '\u000c' || c == '\u0085' || c == ' '

/-- `Regex.Replace(text, @"\s+", " ")`: collapse every whitespace run to a
single space. The boolean tracks whether the previous character was part of
a collapsed run. -/
def collapseWsChars : Bool → List Char → List Char
  | _, [] => []
  | prevWs, c :: rest =>
    if isWsChar c then
      if prevWs then collapseWsChars true rest
      else ' ' :: collapseWsChars true rest
    else c :: collapseWsChars false rest

/-- `String.Trim()` on the collapsed text (whitespace runs are single
spaces by then). -/
def trimSpaces (l : List Char) : List Char :=
  ((l.dropWhile (· == ' ')).reverse.dropWhile (· == ' ')).reverse

/-- `RecorderHtmlParser.CleanText` (lines 2978-2984): HTML-decode, collapse
`\s+` to single spaces, trim. -/
def cleanText (s : String) : String :=
  String.mk (trimSpaces (collapseWsChars false (decodeHtmlChars s.data)))

/-- Prefix test on character lists (helper for the `Contains` and
`StartsWith` embeddings). -/
def strStarts : List Char → List Char → Bool
  | _, [] => true
  | [], _ :: _ => false
  | a :: s, b :: t => a == b && strStarts s t

/-- Substring occurrence test on character lists. -/
def strHasSub : List Char → List Char → Bool
  | [], sub => strStarts [] sub
  | c :: t, sub => strStarts (c :: t) sub || strHasSub t sub

/-- `h.InnerText.Contains(sub, StringComparison.OrdinalIgnoreCase)`:
case-insensitive substring test. -/
def containsCI (s sub : String) : Bool :=
  strHasSub (s.data.map Char.toLower) (sub.data.map Char.toLower)

/-- The URL fix-up applied to a decoded `href` (lines 2850-2856 and
2901-2908): prefix the recorder origin when the URL is relative
(`url.StartsWith(...)`). -/
def makeAbsoluteUrl (url : String) : String :=
  if strStarts url.data "http".data then url
  else "https://crs.cookcountyclerkil.gov" ++
    (if strStarts url.data "/".data then url else "/" ++ url)

/-- `string.IsNullOrEmpty` on an optional string field. -/
def strNullOrEmpty : Option String → Bool
  | none => true
  | some s => s == ""

/-- `ParseSimpleFormat` (lines 2839-2889): cells 1-5 are view link,
document number, date recorded, date executed, document type. Accessing a
missing cell throws (the row has passed `cells.Count < 5`, so only `cells[5]`
can be out of range). No grantor/grantee fields are set. -/
def parseSimpleFormat (cells : List Cell) : Except Unit RecorderDocumentFull :=
  match cells[1]?, cells[2]?, cells[3]?, cells[4]?, cells[5]? with
  | some c1, some c2, some c3, some c4, some c5 =>
    .ok { viewUrl := c1.linkHref.map
            (fun url => makeAbsoluteUrl (String.mk (decodeHtmlChars url.data)))
          documentNumber := c2.spanText.map cleanText
          dateRecorded := c3.spanText.map cleanText
          dateExecuted := c4.spanText.map cleanText
          documentType := c5.spanText.map cleanText }
  | _, _, _, _, _ => .error ()

/-- `ParseExtendedFormat` (lines 2891-2976): cells 1-5 as in the simple
format, then cell 6 first grantor, cell 7 first grantee, cell 8 associated
document number, cell 9 first PIN and property address. -/
def parseExtendedFormat (cells : List Cell) :
    Except Unit RecorderDocumentFull :=
  match cells[1]?, cells[2]?, cells[3]?, cells[4]?, cells[5]?, cells[6]?,
      cells[7]?, cells[8]?, cells[9]? with
  | some c1, some c2, some c3, some c4, some c5, some c6, some c7, some c8,
      some c9 =>
    .ok { viewUrl := c1.linkHref.map
            (fun url => makeAbsoluteUrl (String.mk (decodeHtmlChars url.data)))
          documentNumber := c2.spanText.map cleanText
          dateRecorded := c3.spanText.map cleanText
          dateExecuted := c4.spanText.map cleanText
          documentType := c5.spanText.map cleanText
          firstGrantor := c6.linkText.map cleanText
          firstGrantee := c7.linkText.map cleanText
          associatedDocNumber := c8.linkText.map cleanText
          firstPIN := c9.linkText.map cleanText
          propertyAddress := c9.smallSpanText.map cleanText }
  | _, _, _, _, _, _, _, _, _ => .error ()

/-- An "AddressSearch format" header: contains both "PIN" and "Address",
case-insensitively (line 2786). -/
def isAddressSearchHeader (h : String) : Bool :=
  containsCI h "PIN" && containsCI h "Address"

/-- The body of the `foreach (var row in rows)` loop of `ParseDocuments`
(lines 2803-2834): skip rows with fewer than 5 cells; parse via
`ParseExtendedFormat` when `hasExtendedColumns && cells.Count >= 10`, else
via `ParseSimpleFormat`; a thrown exception (`.error`) skips the row; keep
the document only when both document number and document type are
non-empty. Returns the row's contribution to the result list. -/
def parseRow (hasExtendedColumns : Bool) (row : List Cell) :
    Option RecorderDocumentFull :=
  if row.length < 5 then none
  else
    match (if hasExtendedColumns && decide (10 ≤ row.length) then
             parseExtendedFormat row
           else
             parseSimpleFormat row) with
    | .error _ => none
    | .ok d =>
      if !strNullOrEmpty d.documentNumber && !strNullOrEmpty d.documentType
      then some d
      else none

/-- `ParseDocuments` (lines 2773-2837). `headers` are the `.//thead//th`
inner texts, `rows` the `.//tbody/tr` rows as cell lists (an empty list
models a null `SelectNodes` result, which returns no documents).
AddressSearch-format tables yield no documents.
`hasExtendedColumns = headers.Count >= 9`; the loop appends each row's kept
document in order (= `filterMap` over the rows). -/
def parseDocuments (headers : List String) (rows : List (List Cell)) :
    List RecorderDocumentFull :=
  if headers.isEmpty then []
  else if headers.any isAddressSearchHeader then []
  else
    rows.filterMap (parseRow (decide (9 ≤ headers.length)))

/-! ## GIS coordinate transform (`WebMercatorToLatLon`,
CookCountyProxyService.cs lines 2108-2114) -/

/-- `WebMercatorToLatLon`, modelled over the real numbers (the C# computes
in IEEE doubles; the claim's 1e-4 tolerance is many orders of magnitude
above double rounding error):
`lon = (x / 20037508.34) * 180; lat = (y / 20037508.34) * 180;
lat = 180/PI * (2 * Atan(Exp(lat * PI / 180)) - PI/2)`.
Returns `(lat, lon)` as the C# tuple does. -/
noncomputable def WebMercatorToLatLon (x y : ℝ) : ℝ × ℝ :=
  (180 / Real.pi *
      (2 * Real.arctan (Real.exp (y / 20037508.34 * 180 * Real.pi / 180)) -
        Real.pi / 2),
   x / 20037508.34 * 180)

/-- The independently known geographic value for a Web Mercator point: the
standard closed-form spherical inverse Web Mercator (EPSG:3857) with the
WGS84 semi-major axis `R = 6378137` m:
`lat = 180/π * (2·atan(exp(y/R)) − π/2)`, `lon = 180/π * (x/R)`.
This is external reference truth (the exact inverse of the projection), not
part of the repository; the claim's tolerance is measured against it. -/
noncomputable def standardInverseWebMercator (x y : ℝ) : ℝ × ℝ :=
  (180 / Real.pi * (2 * Real.arctan (Real.exp (y / 6378137)) - Real.pi / 2),
   180 / Real.pi * (x / 6378137))

end CookCounty

namespace CookCounty

/-! ## Supporting lemmas on the endpoint model -/

/-- A string matching the PIN regex is 18 characters long, hence nonempty. -/
theorem pinRegexTest_ne_empty {s : String} (h : pinRegexTest s = true) :
    (s == "") = false := by
  rw [beq_eq_false_iff_ne]
  intro he
  subst he
  exact absurd h (by decide)

/-- With a valid PIN and a cached row present, `handleCachedEndpoint`
proceeds past the guard to the cache check. -/
theorem handleCachedEndpoint_some {α : Type} {pin : String}
    (h : pinRegexTest pin = true) (now : Int) (c : PropertyCache α)
    (live : DotnetResponse α) :
    handleCachedEndpoint pin now (some c) live =
      match c.data with
      | some d =>
        if !isCacheStale now c.fetchedAt then
          ⟨.cacheHit d c.fetchedAt false, false, none⟩
        else
          afterLiveFetch (some c) live
      | none => afterLiveFetch (some c) live := by
  unfold handleCachedEndpoint
  rw [pinRegexTest_ne_empty h, h]
  rfl

/-- With a valid PIN and no cached row, `handleCachedEndpoint` goes straight
to the live fetch. -/
theorem handleCachedEndpoint_none {α : Type} {pin : String}
    (h : pinRegexTest pin = true) (now : Int) (live : DotnetResponse α) :
    handleCachedEndpoint pin now none live = afterLiveFetch none live := by
  unfold handleCachedEndpoint
  rw [pinRegexTest_ne_empty h, h]
  rfl

/-- When the live fetch did not succeed with data, no branch of
`afterLiveFetch` writes to the persistent cache. -/
theorem afterLiveFetch_cacheWrite_of_fail {α : Type}
    (cached : Option (PropertyCache α)) (live : DotnetResponse α)
    (hfail : (live.success && live.data.isSome) = false) :
    (afterLiveFetch cached live).cacheWrite = none := by
  unfold afterLiveFetch
  rw [hfail]
  simp only [Bool.false_eq_true, if_false]
  rcases cached with _ | c
  · rfl
  · rcases hc : c.data with _ | d <;> simp [hc]

/-! ## Claim C1: fresh cache rows short-circuit the live fetch -/

/-- C1 counterexample. The claim quantifies over *every* persistent cache row
of age ≤ 7 days, but `handleCachedEndpoint` additionally requires the row's
`data` to be non-null: for the error-only row
`{data: null, error: "NOT_FOUND", fetchedAt: 0}` at `now = 0` (age 0 ≤ 7
days), a live Session Client fetch *is* invoked, contradicting the claim. -/
theorem freshRow_counterexample :
    (handleCachedEndpoint (α := String) "01-01-120-006-0000" 0
        (some ⟨none, some "NOT_FOUND", 0⟩)
        ⟨502, false, none, some "FETCH_ERROR"⟩).fetchInvoked = true ∧
    isCacheStale 0 0 = false := by
  constructor
  · rfl
  · decide

/-- C1 (amended): for every request with a valid PIN whose persistent cache
row for `(pin, source)` has *non-null data* and age at most 7 days, the
endpoint returns that row's payload annotated `cached: true` with `cachedAt`
equal to the row's fetch timestamp, no live fetch is invoked, and no cache
write happens. -/
theorem freshRow_served_without_fetch {α : Type} (pin : String) (now : Int)
    (c : PropertyCache α) (live : DotnetResponse α) (d : α)
    (hpin : pinRegexTest pin = true) (hdata : c.data = some d)
    (hfresh : isCacheStale now c.fetchedAt = false) :
    handleCachedEndpoint pin now (some c) live =
      ⟨.cacheHit d c.fetchedAt false, false, none⟩ := by
  rw [handleCachedEndpoint_some hpin]
  simp [hdata, hfresh]

/-- Witness for the amended C1 at the spec's end-to-end PIN
`01-01-120-006-0000` with a primed non-stale row. -/
theorem freshRow_served_without_fetch_witness :
    handleCachedEndpoint (α := String) "01-01-120-006-0000" 1000
        (some ⟨some "payload", none, 0⟩) ⟨200, true, some "live", none⟩ =
      ⟨.cacheHit "payload" 0 false, false, none⟩ :=
  freshRow_served_without_fetch "01-01-120-006-0000" 1000
    ⟨some "payload", none, 0⟩ ⟨200, true, some "live", none⟩ "payload"
    (by decide) rfl (by decide)

/-! ## Claim C3: stale fallback on failed live fetch -/

/-- C3 counterexample. The claim quantifies over every stale row, but the
fallback branch checks `cached?.data`: for a stale *error-only* row
(`data: null`) and a failing live fetch, the endpoint forwards the failure
(status 502) instead of returning a success envelope. -/
theorem staleFallback_counterexample :
    (handleCachedEndpoint (α := String) "01-01-120-006-0000" 605000000000
        (some ⟨none, some "NOT_FOUND", 0⟩)
        ⟨502, false, none, some "FETCH_ERROR"⟩).response =
      .passthrough 502 ⟨502, false, none, some "FETCH_ERROR"⟩ ∧
    isCacheStale 605000000000 0 = true := by
  constructor
  · rfl
  · decide

/-- C3 (amended): for every request with a valid PIN where the persistent
cache row for `(pin, source)` is stale *with non-null data* and the live
fetch fails (`!(response.success && response.data)`), the endpoint returns
the stale row's data in a success envelope annotated `cached: true,
stale: true`, with no cache write. -/
theorem staleRow_fallback_on_failure {α : Type} (pin : String) (now : Int)
    (c : PropertyCache α) (live : DotnetResponse α) (d : α)
    (hpin : pinRegexTest pin = true) (hdata : c.data = some d)
    (hstale : isCacheStale now c.fetchedAt = true)
    (hfail : (live.success && live.data.isSome) = false) :
    handleCachedEndpoint pin now (some c) live =
      ⟨.cacheHit d c.fetchedAt true, true, none⟩ := by
  rw [handleCachedEndpoint_some hpin]
  simp only [hdata, hstale, Bool.not_true, Bool.false_eq_true, if_false]
  unfold afterLiveFetch
  rw [hfail]
  simp [hdata]

/-- Witness for the amended C3: stale row, failing fetch. -/
theorem staleRow_fallback_on_failure_witness :
    handleCachedEndpoint (α := String) "01-01-120-006-0000" 605000000000
        (some ⟨some "old", none, 0⟩) ⟨502, false, none, some "FETCH_ERROR"⟩ =
      ⟨.cacheHit "old" 0 true, true, none⟩ :=
  staleRow_fallback_on_failure "01-01-120-006-0000" 605000000000
    ⟨some "old", none, 0⟩ ⟨502, false, none, some "FETCH_ERROR"⟩ "old"
    (by decide) rfl (by decide) (by decide)

/-! ## Claim C10: error-only rows are never served -/

/-- C10: a persistent cache row whose `data` is null is never served: for a
valid PIN, regardless of the row's age (`now` is universally quantified), a
live fetch is invoked and the response is the forwarded live response, never
a cache hit. -/
theorem errorOnlyRow_never_served {α : Type} (pin : String) (now : Int)
    (c : PropertyCache α) (live : DotnetResponse α)
    (hpin : pinRegexTest pin = true) (hdata : c.data = none) :
    (handleCachedEndpoint pin now (some c) live).fetchInvoked = true ∧
    (handleCachedEndpoint pin now (some c) live).response =
      .passthrough live.status live := by
  rw [handleCachedEndpoint_some hpin]
  simp only [hdata]
  unfold afterLiveFetch
  by_cases h : (live.success && live.data.isSome) = true
  · rw [h]
    exact ⟨rfl, rfl⟩
  · rw [Bool.not_eq_true] at h
    rw [h]
    simp [hdata]

/-- Witness for C10: a fresh (age 0) error-only row still triggers a live
fetch and is not served. -/
theorem errorOnlyRow_never_served_witness :
    (handleCachedEndpoint (α := String) "01-01-120-006-0000" 0
        (some ⟨none, some "boom", 0⟩) ⟨200, true, some "live", none⟩).fetchInvoked
      = true ∧
    (handleCachedEndpoint (α := String) "01-01-120-006-0000" 0
        (some ⟨none, some "boom", 0⟩) ⟨200, true, some "live", none⟩).response =
      .passthrough 200 ⟨200, true, some "live", none⟩ :=
  errorOnlyRow_never_served "01-01-120-006-0000" 0 ⟨none, some "boom", 0⟩
    ⟨200, true, some "live", none⟩ (by decide) rfl

/-! ## Claim C2: failed fetches and the persistent cache -/

/-- After an upsert, the row for the key is present with exactly the written
fields and the write timestamp. -/
theorem getCachedData_upsertCache {α : Type} (store : CacheStore α)
    (pin source : String) (data : Option α) (error : Option String)
    (now : Int) :
    getCachedData (upsertCache store pin source data error now) pin source =
      some ⟨data, jsFalsyToNone error, now⟩ := by
  simp [getCachedData, upsertCache, List.find?]

/-- The fallback error string `response.error || "HTTP <status>"` is never
the empty string (a JS-falsy error falls back to the HTTP message). -/
theorem errorOrHttp_ne_empty {α : Type} (live : DotnetResponse α) :
    (errorOrHttp live == "") = false := by
  have hHTTP : ∀ s : String, (("HTTP " ++ s) == "") = false := by
    intro s
    rw [beq_eq_false_iff_ne]
    intro h
    have hlen := congrArg String.length h
    rw [String.length_append] at hlen
    simp at hlen
    exact absurd hlen.1 (by decide)
  unfold errorOrHttp
  rcases hle : live.error with _ | e
  · exact hHTTP _
  · show ((if (e == "") = true then "HTTP " ++ toString live.status else e) == "")
        = false
    by_cases he : (e == "") = true
    · rw [if_pos he]
      exact hHTTP _
    · rw [Bool.not_eq_true] at he
      rw [if_neg (by simp [he])]
      exact he

/-- C2 counterexample. The claim says *every* completed live fetch — success
or source-reported error — upserts the persistent cache row. In the
structured-data endpoint (`handleCachedEndpoint`), a completed live fetch
that fails performs *no* cache write: with a valid PIN, no cached row and a
failing live response, the fetch is invoked but `cacheWrite` is `none`. -/
theorem failedFetch_endpoint_no_upsert :
    (handleCachedEndpoint (α := String) "01-01-120-006-0000" 0 none
        ⟨502, false, none, some "FETCH_ERROR"⟩).fetchInvoked = true ∧
    (handleCachedEndpoint (α := String) "01-01-120-006-0000" 0 none
        ⟨502, false, none, some "FETCH_ERROR"⟩).cacheWrite = none := by
  exact ⟨rfl, rfl⟩

/-- C2 (amended): in the bulk-import fetch path (`fetchAndCacheSource`),
after every completed live fetch — success or source-reported error — the
row for `(pin, source)` is upserted with the current timestamp: successes
store the payload with a null error, failures store a null payload with a
non-null error string. In the structured-data endpoint path, by contrast,
only a successful fetch with usable data writes to the persistent cache —
a failed fetch there performs no write. -/
theorem fetch_upserts_with_current_timestamp {α : Type} (pin source : String)
    (live : DotnetResponse α) (store : CacheStore α) (now mnow : Int)
    (cached : Option (PropertyCache α)) :
    (∃ row, getCachedData (fetchAndCacheSource pin source live store now)
        pin source = some row ∧
      row.fetchedAt = now ∧
      ((live.success && live.data.isSome) = true →
        row.data = live.data ∧ row.error = none) ∧
      ((live.success && live.data.isSome) = false →
        row.data = none ∧ ∃ msg, row.error = some msg)) ∧
    ((live.success && live.data.isSome) = false →
      (handleCachedEndpoint pin mnow cached live).cacheWrite = none) := by
  constructor
  · unfold fetchAndCacheSource
    by_cases h : (live.success && live.data.isSome) = true
    · rw [if_pos h]
      refine ⟨_, getCachedData_upsertCache .., rfl, fun _ => ⟨rfl, rfl⟩, ?_⟩
      intro hfail
      rw [h] at hfail
      cases hfail
    · rw [Bool.not_eq_true] at h
      rw [h]
      simp only [Bool.false_eq_true, if_false]
      refine ⟨_, getCachedData_upsertCache .., rfl, ?_, ?_⟩
      · intro htrue
        simp at htrue
      · intro _
        refine ⟨rfl, errorOrHttp live, ?_⟩
        show (if (errorOrHttp live == "") = true then none
              else some (errorOrHttp live)) = some (errorOrHttp live)
        rw [errorOrHttp_ne_empty]
        rfl
  · intro hfail
    by_cases hp : pinRegexTest pin = true
    · rcases cached with _ | c
      · rw [handleCachedEndpoint_none hp]
        exact afterLiveFetch_cacheWrite_of_fail none live hfail
      · rw [handleCachedEndpoint_some hp]
        rcases hc : c.data with _ | d
        · simp only [hc]
          exact afterLiveFetch_cacheWrite_of_fail (some c) live hfail
        · simp only [hc]
          by_cases hs : (!isCacheStale mnow c.fetchedAt) = true
          · rw [if_pos hs]
          · rw [Bool.not_eq_true] at hs
            rw [hs]
            simpa using afterLiveFetch_cacheWrite_of_fail (some c) live hfail
    · rw [Bool.not_eq_true] at hp
      unfold handleCachedEndpoint
      rw [hp]
      simp

/-- Witness for the amended C2: a failing live response is upserted
(null payload, non-null error, current timestamp) by the import path, while
the endpoint path writes nothing. -/
theorem fetch_upserts_with_current_timestamp_witness :
    (∃ row, getCachedData
        (fetchAndCacheSource (α := String) "01-01-120-006-0000" "tax-portal"
          ⟨502, false, none, some "FETCH_ERROR"⟩ [] 42)
        "01-01-120-006-0000" "tax-portal" = some row ∧
      row.fetchedAt = 42 ∧
      ((false && (none : Option String).isSome) = true →
        row.data = none ∧ row.error = none) ∧
      ((false && (none : Option String).isSome) = false →
        row.data = none ∧ ∃ msg, row.error = some msg)) ∧
    ((false && (none : Option String).isSome) = false →
      (handleCachedEndpoint (α := String) "01-01-120-006-0000" 0 none
        ⟨502, false, none, some "FETCH_ERROR"⟩).cacheWrite = none) :=
  fetch_upserts_with_current_timestamp "01-01-120-006-0000" "tax-portal"
    ⟨502, false, none, some "FETCH_ERROR"⟩ [] 42 0 none

/-! ## Claim C4: staleness boundary -/

/-- C4: a persistent-cache entry aged exactly 7 days + 1 second is stale,
one aged exactly 7 days − 1 second is not, and the comparison is strict at
exactly 7 days (an entry aged exactly 7 days is not yet stale).
`isCacheStale` compares `ageMs > 7*24*60*60*1000`. -/
theorem isCacheStale_seven_day_boundary (now : Int) :
    isCacheStale now (now - (7 * 24 * 60 * 60 * 1000 + 1000)) = true ∧
    isCacheStale now (now - (7 * 24 * 60 * 60 * 1000 - 1000)) = false ∧
    isCacheStale now (now - 7 * 24 * 60 * 60 * 1000) = false := by
  refine ⟨?_, ?_, ?_⟩ <;>
    simp only [isCacheStale, CACHE_MAX_AGE_HOURS, decide_eq_true_eq,
      decide_eq_false_iff_not] <;> omega

/-! ## Claim C5: PIN validation -/

/-- Length-4 lists are exactly the four-element lists. -/
theorem list_length_eq_four {α : Type} {l : List α} (h : l.length = 4) :
    ∃ a b c d, l = [a, b, c, d] := by
  rcases l with _ | ⟨a, l⟩
  · simp at h
  rcases l with _ | ⟨b, l⟩
  · simp at h
  rcases l with _ | ⟨c, l⟩
  · simp at h
  rcases l with _ | ⟨d, l⟩
  · simp at h
  rcases l with _ | ⟨e, l⟩
  · exact ⟨a, b, c, d, rfl⟩
  · simp only [List.length_cons] at h
    omega

/-- An ASCII digit is a .NET `\d` digit. -/
theorem isDotnetDigit_of_isDigit {c : Char} (h : c.isDigit = true) :
    isDotnetDigit c = true := by
  unfold isDotnetDigit
  rw [h]
  rfl

/-- An ECMAScript match of the PIN pattern is also a .NET-semantics match
of its dashed-digit shape (ASCII digits are Unicode digits). -/
theorem dotnetPinShape_of_pinRegexTest {s : String}
    (h : pinRegexTest s = true) : dotnetPinShape s.data = true := by
  unfold pinRegexTest at h
  split at h
  · rename_i a b h1 c d h2 e f g h3 i j k h4 lv m n o heq
    simp only [Bool.and_eq_true, beq_iff_eq, and_assoc] at h
    obtain ⟨ha, hb, hh1, hc, hd, hh2, he, hf, hg, hh3, hi, hj, hk, hh4,
      hlv, hm, hn, ho⟩ := h
    subst hh1 hh2 hh3 hh4
    rw [heq]
    simp [dotnetPinShape, isDotnetDigit_of_isDigit, ha, hb, hc, hd, he, hf,
      hg, hi, hj, hk, hlv, hm, hn, ho]
  · cases h

/-- C5 counterexample. The claim asserts that every string not matching
`^\d{2}-\d{2}-\d{3}-\d{3}-\d{4}$` gets `INVALID_PIN` with no network call in
the .NET fetch services too. But `PinRegex` runs under .NET default
semantics, where `$` also matches before one trailing newline (and `\d`
matches Unicode digits): `"01-01-120-006-0000\n"` does not match the
pattern (ECMAScript reading — 19 characters), yet `ValidatePin` accepts it
and `FetchTaxPortalAsync` proceeds to the network fetch and caches the
result instead of returning `INVALID_PIN`. -/
theorem dotnet_accepts_newline_pin :
    pinRegexTest "01-01-120-006-0000\n" = false ∧
    validatePin "01-01-120-006-0000\n" = true ∧
    FetchTaxPortal "01-01-120-006-0000\n" [] (.success "results") =
      (.successHtml "results",
       memSet [] ("taxportal_" ++ "01-01-120-006-0000\n") "results") := by
  refine ⟨by decide, by decide, ?_⟩
  rfl

/-- C5 (amended): the ECMAScript PIN regex accepts exactly the strings made
of five all-digit groups of lengths 2-2-3-3-4 joined by dashes; every such
string passes all three validators (`PIN_REGEX`, `pinSchema`, C#
`ValidatePin`). Every other string is rejected by the Express
structured-data endpoints and by `pinSchema` with `INVALID_PIN` and no
network call (the endpoint result is independent of the would-be live
response, with `fetchInvoked = false`). The .NET fetch services also
validate before any I/O, but against the same pattern under .NET default
regex semantics — a strictly larger acceptance set (`\d` = any Unicode
decimal digit; `$` also before one trailing newline): every string the .NET
regex rejects gets `INVALID_PIN` with the cache unchanged and the result
independent of the would-be network outcome. -/
theorem pin_validation (s : String) :
    (pinRegexTest s = true ↔ PinGroupsForm s) ∧
    (pinRegexTest s = true →
      validatePin s = true ∧ pinSchemaAccepts s = true) ∧
    (pinRegexTest s = false →
      pinSchemaAccepts s = false ∧
      (∀ (α : Type) (now : Int) (cached : Option (PropertyCache α))
          (live : DotnetResponse α),
        handleCachedEndpoint s now cached live = ⟨.invalidPin, false, none⟩)) ∧
    (dotnetPinRegexMatch s = false →
      validatePin s = false ∧
      (∀ (cache : MemCache String) (outcome : RawFetchOutcome),
        FetchTaxPortal s cache outcome =
          (.errorResp "Invalid or missing PIN. Format: XX-XX-XXX-XXX-XXXX"
            "INVALID_PIN", cache))) := by
  refine ⟨⟨?_, ?_⟩, ?_, ?_, ?_⟩
  · -- regex accepts → groups form
    intro h
    unfold pinRegexTest at h
    split at h
    · rename_i a b h1 c d h2 e f g h3 i j k h4 lv m n o heq
      simp only [Bool.and_eq_true, beq_iff_eq, and_assoc] at h
      obtain ⟨ha, hb, hh1, hc, hd, hh2, he, hf, hg, hh3, hi, hj, hk, hh4,
        hlv, hm, hn, ho⟩ := h
      subst hh1 hh2 hh3 hh4
      refine ⟨[a, b], [c, d], [e, f, g], [i, j, k], [lv, m, n, o],
        ?_, rfl, rfl, rfl, rfl, rfl, ?_⟩
      · rw [heq]
        rfl
      · simp [List.all_cons, ha, hb, hc, hd, he, hf, hg, hi, hj, hk,
          hlv, hm, hn, ho]
    · cases h
  · -- groups form → regex accepts
    rintro ⟨g1, g2, g3, g4, g5, hs, h1, h2, h3, h4, h5, hdig⟩
    obtain ⟨a, b, rfl⟩ := List.length_eq_two.mp h1
    obtain ⟨c, d, rfl⟩ := List.length_eq_two.mp h2
    obtain ⟨e, f, g, rfl⟩ := List.length_eq_three.mp h3
    obtain ⟨i, j, k, rfl⟩ := List.length_eq_three.mp h4
    obtain ⟨lv, m, n, o, rfl⟩ := list_length_eq_four h5
    simp only [List.cons_append, List.nil_append] at hs
    simp only [List.all_append, List.all_cons, List.all_nil,
      Bool.and_eq_true, Bool.and_true, and_true, and_assoc] at hdig
    obtain ⟨ha, hb, hc, hd, he, hf, hg, hi, hj, hk, hlv, hm, hn, ho⟩ :=
      hdig
    unfold pinRegexTest
    rw [hs]
    simp [ha, hb, hc, hd, he, hf, hg, hi, hj, hk, hlv, hm, hn, ho]
  · -- matching strings pass all three validators
    intro h
    refine ⟨?_, h⟩
    unfold validatePin
    rw [pinRegexTest_ne_empty h]
    have hd : dotnetPinRegexMatch s = true := by
      unfold dotnetPinRegexMatch
      rw [dotnetPinShape_of_pinRegexTest h]
      rfl
    rw [hd]
    rfl
  · -- non-matching strings: Express and zod reject, no I/O
    intro h
    refine ⟨h, ?_⟩
    intro α now cached live
    unfold handleCachedEndpoint
    rw [h]
    simp
  · -- strings failing the .NET regex: the .NET services reject, no I/O
    intro h
    have hv : validatePin s = false := by
      unfold validatePin
      rw [h, Bool.and_false]
    refine ⟨hv, ?_⟩
    intro cache outcome
    unfold FetchTaxPortal
    rw [hv]
    rfl

/-- Witness for the amended C5: the canonical valid PIN passes, and
malformed identifiers from the spec are rejected with `INVALID_PIN` and no
effects in the respective layers. -/
theorem pin_validation_witness :
    validatePin "01-01-120-006-0000" = true ∧
    handleCachedEndpoint (α := String) "AB-01-120-006-0000" 0 none
        ⟨200, true, some "x", none⟩ = ⟨.invalidPin, false, none⟩ ∧
    FetchTaxPortal "123-45" [] (.success "html") =
      (.errorResp "Invalid or missing PIN. Format: XX-XX-XXX-XXX-XXXX"
        "INVALID_PIN", []) ∧
    pinSchemaAccepts "01-01-120-006-000" = false :=
  ⟨((pin_validation "01-01-120-006-0000").2.1 (by decide)).1,
   ((pin_validation "AB-01-120-006-0000").2.2.1 (by decide)).2 String 0
     none ⟨200, true, some "x", none⟩,
   ((pin_validation "123-45").2.2.2 (by decide)).2 [] (.success "html"),
   ((pin_validation "01-01-120-006-000").2.2.1 (by decide)).1⟩

/-! ## Claim C6: manual cache invalidation -/

/-- C6: evaluation at the failing input. With no identifier, `ClearCache`
removes nothing (it only logs): a populated cache is returned unchanged,
contradicting "every entry for every identifier is removed". Moreover, even
the per-identifier clear removes only the raw-HTML service's five keys and
leaves that same identifier's structured-data entries (`clerk_…`,
`cookviewer_…`) in the shared `IMemoryCache`. -/
theorem clearCache_noPin_removes_nothing :
    ClearCache (V := String) none
        [("taxportal_01-01-120-006-0000", "html"),
         ("clerk_01-01-120-006-0000", "structured")] =
      [("taxportal_01-01-120-006-0000", "html"),
       ("clerk_01-01-120-006-0000", "structured")] ∧
    ClearCache (V := String) (some "01-01-120-006-0000")
        [("taxportal_01-01-120-006-0000", "html"),
         ("clerk_01-01-120-006-0000", "structured")] =
      [("clerk_01-01-120-006-0000", "structured")] := by
  constructor
  · rfl
  · rfl

/-! ## Claim C7: in-process cache population on fetch failure -/

/-- C7 counterexample. In the structured-data operation
(`GetTaxPortalDataAsync`), a fetch whose try-block raises *does* write an
entry for `taxportal_{pin}` into the in-process cache: the catch swallows
the exception into the record's `Error` and the unconditional
`_cache.Set` (line 1315) stores it. -/
theorem structuredFetch_caches_on_raise :
    (GetTaxPortalData (α := Unit) "01-01-120-006-0000" [] (.error "timeout")).2
      = [("taxportal_01-01-120-006-0000",
          ⟨"01-01-120-006-0000", none, some "Fetch failed: timeout"⟩)] := by
  rfl

/-- C7 (amended): the raw-HTML fetch operations populate the in-process
cache only after a successful fetch — a fetch that raises is caught and
reported as `FETCH_ERROR` with the cache untouched, and a source-reported
error also leaves the cache untouched. The structured-data operations,
however, cache the assembled record unconditionally: when the underlying
fetch raises, an error-carrying entry for that key *is* written. -/
theorem inProcessCache_population {α : Type} (pin : String)
    (cache : MemCache String) (msg e code : String)
    (scache : MemCache (StructEntry α))
    (hpin : validatePin pin = true)
    (hmiss : memLookup cache ("taxportal_" ++ pin) = none)
    (hsmiss : memLookup scache ("taxportal_" ++ pin) = none) :
    FetchTaxPortal pin cache (.raises msg) =
      (.errorResp "Failed to fetch tax portal data" "FETCH_ERROR", cache) ∧
    FetchTaxPortal pin cache (.sourceError e code) =
      (.errorResp e code, cache) ∧
    (GetTaxPortalData pin scache (.error msg)).2 =
      memSet scache ("taxportal_" ++ pin)
        ⟨pin, none, some ("Fetch failed: " ++ msg)⟩ := by
  refine ⟨?_, ?_, ?_⟩
  · unfold FetchTaxPortal
    rw [hpin, hmiss]
    rfl
  · unfold FetchTaxPortal
    rw [hpin, hmiss]
    rfl
  · unfold GetTaxPortalData
    rw [hpin, hsmiss]
    rfl

/-! ## Claim C8: recorder layout detection -/

/-- A document produced by the simple-format parser never carries
grantor/grantee fields. -/
theorem parseSimpleFormat_no_grantor {cells : List Cell}
    {d : RecorderDocumentFull} (h : parseSimpleFormat cells = .ok d) :
    d.firstGrantor = none ∧ d.firstGrantee = none := by
  unfold parseSimpleFormat at h
  split at h
  · cases h
    exact ⟨rfl, rfl⟩
  · cases h

/-- For a 6-header table, `parseRow` runs with `hasExtendedColumns = false`,
so every kept document comes from the simple-format parser. -/
theorem parseRow_simple_of_not_extended {row : List Cell}
    {d : RecorderDocumentFull} (h : parseRow false row = some d) :
    parseSimpleFormat row = .ok d := by
  unfold parseRow at h
  split at h
  · cases h
  · simp only [Bool.false_and, Bool.false_eq_true, if_false] at h
    split at h
    · cases h
    · next d' hd' =>
      split at h
      · cases h
        exact hd'
      · cases h

/-- C8 counterexample: a results table whose header row has exactly 9
columns (so `headers.Count >= 9` holds) with a 9-cell row — the row is
parsed via the *simple* path (the extended path also requires
`cells.Count >= 10`), so the kept document has no grantor/grantee fields,
contradicting the claim that every ≥9-column table is parsed via the
extended-column path producing grantor/grantee. -/
theorem nineColumnTable_parsed_simple :
    (parseDocuments
        ["Select", "View", "Doc Number", "Recorded Date", "Executed Date",
         "Doc Type", "Grantor", "Grantee", "Assoc Doc"]
        [[⟨none, none, none, none⟩,
          ⟨some "/doc/1", none, none, none⟩,
          ⟨none, none, some "2300123456", none⟩,
          ⟨none, none, some "01/15/2023", none⟩,
          ⟨none, none, some "01/10/2023", none⟩,
          ⟨none, none, some "WARRANTY DEED", none⟩,
          ⟨none, some "SMITH JOHN", none, none⟩,
          ⟨none, some "DOE JANE", none, none⟩,
          ⟨none, some "2300111111", none, none⟩]]).map
      (fun d => (d.documentNumber, d.documentType, d.firstGrantor,
        d.firstGrantee)) =
      [(some "2300123456", some "WARRANTY DEED", none, none)] := by
  decide

/-- C8 (amended): in a results table whose header row has at least 9
columns (and is not the AddressSearch summary layout), a row with at least
10 cells is parsed via the extended-column path, producing grantor/grantee
fields from cells 6 and 7; rows with fewer than 10 cells fall back to the
simple path. In every 6-column table rows are parsed via the simple path
and kept documents never carry grantor/grantee fields. Parsing the narrower
shape never throws: the simple parser succeeds on any row with at least 6
cells (and per-row exceptions only skip the row). -/
theorem recorderLayout_detection :
    (∀ (headers : List String) (row : List Cell) (d : RecorderDocumentFull),
      headers.isEmpty = false →
      headers.any isAddressSearchHeader = false →
      9 ≤ headers.length → 10 ≤ row.length →
      parseExtendedFormat row = .ok d →
      strNullOrEmpty d.documentNumber = false →
      strNullOrEmpty d.documentType = false →
      parseDocuments headers [row] = [d] ∧
      d.firstGrantor = ((row[6]?).bind Cell.linkText).map cleanText ∧
      d.firstGrantee = ((row[7]?).bind Cell.linkText).map cleanText) ∧
    (∀ (headers : List String) (rows : List (List Cell))
        (d : RecorderDocumentFull), headers.length = 6 →
      d ∈ parseDocuments headers rows →
      d.firstGrantor = none ∧ d.firstGrantee = none) ∧
    (∀ cells : List Cell, 6 ≤ cells.length →
      ∃ d, parseSimpleFormat cells = .ok d) := by
  refine ⟨?_, ?_, ?_⟩
  · intro headers row d hne haddr h9 h10 hext hnum htyp
    have hg6 : 6 < row.length := by omega
    have hg7 : 7 < row.length := by omega
    have hgrantor : d.firstGrantor =
        ((row[6]?).bind Cell.linkText).map cleanText ∧
        d.firstGrantee = ((row[7]?).bind Cell.linkText).map cleanText := by
      unfold parseExtendedFormat at hext
      rw [List.getElem?_eq_getElem (by omega : 1 < row.length),
        List.getElem?_eq_getElem (by omega : 2 < row.length),
        List.getElem?_eq_getElem (by omega : 3 < row.length),
        List.getElem?_eq_getElem (by omega : 4 < row.length),
        List.getElem?_eq_getElem (by omega : 5 < row.length),
        List.getElem?_eq_getElem hg6, List.getElem?_eq_getElem hg7,
        List.getElem?_eq_getElem (by omega : 8 < row.length),
        List.getElem?_eq_getElem (by omega : 9 < row.length)] at hext
      cases hext
      rw [List.getElem?_eq_getElem hg6, List.getElem?_eq_getElem hg7]
      exact ⟨rfl, rfl⟩
    refine ⟨?_, hgrantor.1, hgrantor.2⟩
    have hrow : parseRow true row = some d := by
      unfold parseRow
      have hn5 : ¬row.length < 5 := by omega
      have h10d : decide (10 ≤ row.length) = true := by simpa using h10
      rw [if_neg hn5, h10d]
      simp only [Bool.true_and, if_true]
      rw [hext]
      show (if !strNullOrEmpty d.documentNumber &&
              !strNullOrEmpty d.documentType then some d else none) = some d
      rw [hnum, htyp]
      rfl
    unfold parseDocuments
    rw [hne, haddr]
    simp only [Bool.false_eq_true, if_false]
    have h9d : decide (9 ≤ headers.length) = true := by simpa using h9
    rw [h9d]
    simp [List.filterMap_cons, hrow]
  · intro headers rows d hlen hmem
    have hne : headers.isEmpty = false := by
      rcases headers with _ | ⟨a, t⟩
      · simp at hlen
      · rfl
    unfold parseDocuments at hmem
    rw [hne] at hmem
    simp only [Bool.false_eq_true, if_false] at hmem
    by_cases haddr : headers.any isAddressSearchHeader = true
    · rw [haddr] at hmem
      simp at hmem
    · rw [Bool.not_eq_true] at haddr
      rw [haddr] at hmem
      simp only [Bool.false_eq_true, if_false] at hmem
      have h9d : decide (9 ≤ headers.length) = false := by
        rw [hlen]
        rfl
      rw [h9d] at hmem
      rw [List.mem_filterMap] at hmem
      obtain ⟨row, _, hrow⟩ := hmem
      exact parseSimpleFormat_no_grantor (parseRow_simple_of_not_extended hrow)
  · intro cells h
    have h1 : 1 < cells.length := by omega
    have h2 : 2 < cells.length := by omega
    have h3 : 3 < cells.length := by omega
    have h4 : 4 < cells.length := by omega
    have h5 : 5 < cells.length := by omega
    refine ⟨{ viewUrl := (cells[1]).linkHref.map
                (fun url => makeAbsoluteUrl (String.mk (decodeHtmlChars url.data)))
              documentNumber := (cells[2]).spanText.map cleanText
              dateRecorded := (cells[3]).spanText.map cleanText
              dateExecuted := (cells[4]).spanText.map cleanText
              documentType := (cells[5]).spanText.map cleanText }, ?_⟩
    unfold parseSimpleFormat
    rw [List.getElem?_eq_getElem h1, List.getElem?_eq_getElem h2,
      List.getElem?_eq_getElem h3, List.getElem?_eq_getElem h4,
      List.getElem?_eq_getElem h5]

/-- Witness for the amended C8: a 10-column extended table row produces
grantor/grantee fields, and the simple parser succeeds on a 6-cell row. -/
theorem recorderLayout_detection_witness :
    parseDocuments
        ["H1", "H2", "H3", "H4", "H5", "H6", "H7", "H8", "H9", "H10"]
        [[⟨none, none, none, none⟩,
          ⟨some "/d", none, none, none⟩,
          ⟨none, none, some "123", none⟩,
          ⟨none, none, some "01/01", none⟩,
          ⟨none, none, some "02/02", none⟩,
          ⟨none, none, some "DEED", none⟩,
          ⟨none, some "G", none, none⟩,
          ⟨none, some "E", none, none⟩,
          ⟨none, some "A", none, none⟩,
          ⟨none, some "P", none, some "ADDR"⟩]] =
      [{ viewUrl := some "https://crs.cookcountyclerkil.gov/d",
         documentNumber := some "123", dateRecorded := some "01/01",
         dateExecuted := some "02/02", documentType := some "DEED",
         firstGrantor := some "G", firstGrantee := some "E",
         associatedDocNumber := some "A", firstPIN := some "P",
         propertyAddress := some "ADDR" }] ∧
    (∃ d, parseSimpleFormat
        [⟨none, none, none, none⟩, ⟨none, none, none, none⟩,
         ⟨none, none, some "1", none⟩, ⟨none, none, none, none⟩,
         ⟨none, none, none, none⟩, ⟨none, none, some "T", none⟩] = .ok d) :=
  ⟨(recorderLayout_detection.1
      ["H1", "H2", "H3", "H4", "H5", "H6", "H7", "H8", "H9", "H10"]
      [⟨none, none, none, none⟩,
       ⟨some "/d", none, none, none⟩,
       ⟨none, none, some "123", none⟩,
       ⟨none, none, some "01/01", none⟩,
       ⟨none, none, some "02/02", none⟩,
       ⟨none, none, some "DEED", none⟩,
       ⟨none, some "G", none, none⟩,
       ⟨none, some "E", none, none⟩,
       ⟨none, some "A", none, none⟩,
       ⟨none, some "P", none, some "ADDR"⟩]
      { viewUrl := some "https://crs.cookcountyclerkil.gov/d",
        documentNumber := some "123", dateRecorded := some "01/01",
        dateExecuted := some "02/02", documentType := some "DEED",
        firstGrantor := some "G", firstGrantee := some "E",
        associatedDocNumber := some "A", firstPIN := some "P",
        propertyAddress := some "ADDR" }
      (by decide) (by decide) (by decide)
      (by decide) (by rfl) (by decide) (by decide)).1,
   recorderLayout_detection.2.2 _ (by decide)⟩

/-- Witness for the amended C7 at a concrete PIN with empty caches. -/
theorem inProcessCache_population_witness :
    FetchTaxPortal "01-01-120-006-0000" [] (.raises "boom") =
      (.errorResp "Failed to fetch tax portal data" "FETCH_ERROR", []) ∧
    FetchTaxPortal "01-01-120-006-0000" [] (.sourceError "nope" "NOT_FOUND") =
      (.errorResp "nope" "NOT_FOUND", []) ∧
    (GetTaxPortalData (α := Unit) "01-01-120-006-0000" [] (.error "boom")).2 =
      memSet [] ("taxportal_" ++ "01-01-120-006-0000")
        ⟨"01-01-120-006-0000", none, some ("Fetch failed: " ++ "boom")⟩ :=
  inProcessCache_population "01-01-120-006-0000" [] "boom" "nope" "NOT_FOUND"
    [] (by decide) rfl rfl

/-! ## Claim C9: GIS coordinate transform -/

/-- `arctan` is 1-Lipschitz (its derivative `1/(1+x²)` is bounded by 1). -/
theorem abs_arctan_sub_le (a b : ℝ) :
    |Real.arctan a - Real.arctan b| ≤ |a - b| := by
  have h := convex_univ.norm_image_sub_le_of_norm_deriv_le
    (f := Real.arctan) (C := 1)
    (fun x _ => Real.differentiableAt_arctan x)
    (fun x _ => by
      rw [Real.deriv_arctan, Real.norm_eq_abs,
        abs_of_pos (by positivity : (0:ℝ) < 1 / (1 + x ^ 2)),
        div_le_one (by positivity)]
      nlinarith [sq_nonneg x])
    (Set.mem_univ b) (Set.mem_univ a)
  rw [Real.norm_eq_abs, Real.norm_eq_abs, one_mul] at h
  exact h

/-- `exp` is 3-Lipschitz on `[-1, 1]` (its derivative `exp x` is at most
`exp 1 < 3` there). -/
theorem abs_exp_sub_le {a b : ℝ} (ha : a ∈ Set.Icc (-1 : ℝ) 1)
    (hb : b ∈ Set.Icc (-1 : ℝ) 1) :
    |Real.exp a - Real.exp b| ≤ 3 * |a - b| := by
  have h := (convex_Icc (-1 : ℝ) 1).norm_image_sub_le_of_norm_deriv_le
    (f := Real.exp) (C := 3)
    (fun x _ => Real.differentiableAt_exp)
    (fun x hx => by
      rw [Real.deriv_exp, Real.norm_eq_abs, abs_of_pos (Real.exp_pos x)]
      have h1 : Real.exp x ≤ Real.exp 1 := Real.exp_le_exp.mpr hx.2
      have h2 : Real.exp 1 < 2.7182818286 := Real.exp_one_lt_d9
      linarith)
    hb ha
  rw [Real.norm_eq_abs, Real.norm_eq_abs] at h
  exact h

/-- C9: the projected-to-geographic transform maps Web Mercator `(0, 0)` to
geographic `(0, 0)` exactly, and at the reference point
`X = -9753977, Y = 5182079` its latitude and longitude agree with the exact
standard inverse Web Mercator value to within `1e-4` degrees (the transform
uses the constant `20037508.34` in place of `π·6378137 ≈ 20037508.3428`,
introducing an error far below the tolerance). -/
theorem webMercator_reference_points :
    WebMercatorToLatLon 0 0 = (0, 0) ∧
    |(WebMercatorToLatLon (-9753977) 5182079).1 -
        (standardInverseWebMercator (-9753977) 5182079).1| ≤ 1e-4 ∧
    |(WebMercatorToLatLon (-9753977) 5182079).2 -
        (standardInverseWebMercator (-9753977) 5182079).2| ≤ 1e-4 := by
  have hπlo : (3.14159265358979323846 : ℝ) < Real.pi := Real.pi_gt_d20
  have hπhi : Real.pi < 3.14159265358979323847 := Real.pi_lt_d20
  have hπpos : (0 : ℝ) < Real.pi := Real.pi_pos
  refine ⟨?_, ?_, ?_⟩
  · -- (0, 0) ↦ (0, 0)
    unfold WebMercatorToLatLon
    have h0 : (0 : ℝ) / 20037508.34 * 180 * Real.pi / 180 = 0 := by
      norm_num
    rw [h0, Real.exp_zero, Real.arctan_one]
    have hlat : 180 / Real.pi * (2 * (Real.pi / 4) - Real.pi / 2) = 0 := by
      ring_nf
    rw [hlat]
    norm_num
  · -- latitude at the reference point
    show |180 / Real.pi *
        (2 * Real.arctan
          (Real.exp ((5182079 : ℝ) / 20037508.34 * 180 * Real.pi / 180)) -
          Real.pi / 2) -
      180 / Real.pi *
        (2 * Real.arctan (Real.exp ((5182079 : ℝ) / 6378137)) -
          Real.pi / 2)| ≤ 1e-4
    have hu1 : (5182079 : ℝ) / 20037508.34 * 180 * Real.pi / 180 =
        5182079 / 20037508.34 * Real.pi := by
      ring
    rw [hu1]
    have hu1mem : (5182079 : ℝ) / 20037508.34 * Real.pi ∈
        Set.Icc (-1 : ℝ) 1 := by
      constructor
      · nlinarith
      · nlinarith
    have hu2mem : (5182079 : ℝ) / 6378137 ∈ Set.Icc (-1 : ℝ) 1 := by
      constructor <;> norm_num
    have hdiff : |(5182079 : ℝ) / 20037508.34 * Real.pi -
        5182079 / 6378137| ≤ 1e-9 := by
      rw [abs_le]
      constructor
      · nlinarith
      · nlinarith
    have hexp := abs_exp_sub_le hu1mem hu2mem
    have harc := abs_arctan_sub_le
      (Real.exp ((5182079 : ℝ) / 20037508.34 * Real.pi))
      (Real.exp ((5182079 : ℝ) / 6378137))
    have hkey : |Real.arctan
          (Real.exp ((5182079 : ℝ) / 20037508.34 * Real.pi)) -
        Real.arctan (Real.exp ((5182079 : ℝ) / 6378137))| ≤ 3e-9 := by
      calc |Real.arctan (Real.exp ((5182079 : ℝ) / 20037508.34 * Real.pi)) -
            Real.arctan (Real.exp ((5182079 : ℝ) / 6378137))|
          ≤ |Real.exp ((5182079 : ℝ) / 20037508.34 * Real.pi) -
              Real.exp ((5182079 : ℝ) / 6378137)| := harc
        _ ≤ 3 * |(5182079 : ℝ) / 20037508.34 * Real.pi -
              5182079 / 6378137| := hexp
        _ ≤ 3 * 1e-9 := by linarith
        _ = 3e-9 := by norm_num
    have hfactor : 180 / Real.pi *
          (2 * Real.arctan
            (Real.exp ((5182079 : ℝ) / 20037508.34 * Real.pi)) -
            Real.pi / 2) -
        180 / Real.pi *
          (2 * Real.arctan (Real.exp ((5182079 : ℝ) / 6378137)) -
            Real.pi / 2) =
        360 / Real.pi *
          (Real.arctan (Real.exp ((5182079 : ℝ) / 20037508.34 * Real.pi)) -
            Real.arctan (Real.exp ((5182079 : ℝ) / 6378137))) := by
      ring
    rw [hfactor, abs_mul]
    have h360 : |(360 : ℝ) / Real.pi| ≤ 115 := by
      rw [abs_of_pos (by positivity), div_le_iff₀ hπpos]
      nlinarith
    calc |(360 : ℝ) / Real.pi| *
          |Real.arctan (Real.exp ((5182079 : ℝ) / 20037508.34 * Real.pi)) -
            Real.arctan (Real.exp ((5182079 : ℝ) / 6378137))|
        ≤ 115 * 3e-9 := by
          apply mul_le_mul h360 hkey (abs_nonneg _) (by norm_num)
      _ ≤ 1e-4 := by norm_num
  · -- longitude at the reference point
    show |(-9753977 : ℝ) / 20037508.34 * 180 -
        180 / Real.pi * ((-9753977 : ℝ) / 6378137)| ≤ 1e-4
    have hlow : (1 : ℝ) / 3.14159265358979323847 < 1 / Real.pi :=
      one_div_lt_one_div_of_lt hπpos hπhi
    have hhigh : (1 : ℝ) / Real.pi < 1 / 3.14159265358979323846 :=
      one_div_lt_one_div_of_lt (by norm_num) hπlo
    have hrw : 180 / Real.pi * ((-9753977 : ℝ) / 6378137) =
        180 * (-9753977) / 6378137 * (1 / Real.pi) := by
      ring
    rw [hrw, abs_le]
    constructor
    · nlinarith
    · nlinarith

end CookCounty
